import Mathlib

/-!
Shallow embedding of the gsr-jit compiler core (src/compiler.rs and
src/jit_memory.rs) and proofs about it.

Machine integers are modelled as `Nat` with explicit `% 2^w` at the
points where the Rust code performs `as u8` / `as u16` / `as u32`
truncating casts.  Fallible Rust code returning `Option`/`Result` is
modelled with `Option`/pairs; a Rust panic (`unwrap` on `None`) is
modelled as a distinguished outcome.
-/

namespace GsrJit

/-- Mirror of `syn::IntSuffix` (the suffix of an integer literal).
The source matches the eight width suffixes plus `None` and has a
catch-all arm, modelled here by the `Usize`/`Isize` constructors. -/
inductive IntSuffix
  | None | I8 | I16 | I32 | I64 | U8 | U16 | U32 | U64 | Usize | Isize
deriving DecidableEq

/-- Mirror of `syn::Lit`, restricted to the cases the compiler inspects:
an integer literal (its `u64` value and suffix) and everything else. -/
inductive Lit
  | int (value : Nat) (suffix : IntSuffix)
  | other
deriving DecidableEq

/-- Mirror of `syn::Expr`, restricted to the cases the compiler inspects. -/
inductive Expr
  | lit (l : Lit)
  | other
deriving DecidableEq

/-- Mirror of `syn::Stmt`, restricted to the cases the compiler inspects:
a trailing expression statement and everything else. -/
inductive Stmt
  | expr (e : Expr)
  | other
deriving DecidableEq

/-- Mirror of `syn::Type`, restricted to what `get_return_type_outer`
inspects: a path type (leading-colon flag plus its path segments, each
reduced to its identifier string) and everything else. -/
inductive Ty
  | path (leading_colon : Bool) (segments : List String)
  | other
deriving DecidableEq

/-- Mirror of `syn::Attribute`: leading-colon flag of the attribute path
plus its segment identifiers. -/
structure Attr where
  leading_colon : Bool
  segments : List String
deriving DecidableEq

/-- Mirror of `syn::ItemFn`, reduced to the fields `compile` reads.
The argument list only matters through membership in the `Function`
record, so it is modelled by its length. -/
structure ItemFn where
  ident : String
  attrs : List Attr
  output : Option Ty
  stmts : List Stmt
  inputs : Nat
deriving DecidableEq

/-- Mirror of `syn::Item`, restricted to `Item::Fn` and everything else
(non-function items are ignored by `compile`). -/
inductive Item
  | fn (f : ItemFn)
  | other
deriving DecidableEq

/-- `StaticIntLiteral` from src/compiler.rs. -/
inductive StaticIntLiteral
  | I8 | I16 | I32 | I64 | U8 | U16 | U32 | U64
  | UnknownSize (v : Nat)
deriving DecidableEq

/-- `StaticFloatLiteral` from src/compiler.rs. -/
inductive StaticFloatLiteral
  | F64 | F32
deriving DecidableEq

/-- `StaticVecLiteral` from src/compiler.rs. -/
inductive StaticVecLiteral
  | Vec2 | Vec3 | Vec4
deriving DecidableEq

/-- `Ret` from src/compiler.rs: the return-kind taxonomy. -/
inductive Ret
  | Str | ByteStr | Byte | Char
  | Int (i : StaticIntLiteral)
  | Float (f : StaticFloatLiteral)
  | Bool
  | Vec (v : StaticVecLiteral)
deriving DecidableEq

/-- `Instruction` from src/compiler.rs: a one- or two-byte opcode. -/
inductive Instruction
  | OneComponent (a : Nat)
  | TwoComponent (a b : Nat)
deriving DecidableEq

/-- `Ret::get_optimal_register_return` from src/compiler.rs. -/
def Ret.get_optimal_register_return : Ret → Option Instruction
  | Ret.Int i =>
    match i with
    | .I8 | .U8 => some (Instruction.OneComponent 0xB0)
    | .I16 | .U16 => some (Instruction.TwoComponent 0x66 0xB8)
    | .I32 | .U32 => some (Instruction.OneComponent 0xB8)
    | .I64 | .U64 => some (Instruction.TwoComponent 0x48 0xB8)
    | _ => none
  | _ => none

/-- `Function` from src/compiler.rs (arguments modelled by their count;
`memory_location` is always `None` in the code paths under study). -/
structure Function where
  name : String
  arguments : Nat
  statements : List Stmt
  return_type : Option Ty
deriving DecidableEq

/-- `FN_PROLOGUE` from src/compiler.rs: push rbp; mov rbp, rsp. -/
def FN_PROLOGUE : List Nat := [0x55, 0x48, 0x89, 0xE5]

/-- `FN_EPILOGUE` from src/compiler.rs: pop rbp; ret. -/
def FN_EPILOGUE : List Nat := [0x5D, 0xC3]

/-- `determine_minimal_size` from src/compiler.rs: smallest unsigned
width bucket for a `u64` value, with strict `<` at each boundary. -/
def determine_minimal_size (actual : Nat) : StaticIntLiteral :=
  if actual < 0xff then
    StaticIntLiteral.U8
  else if actual < 0xffff then
    StaticIntLiteral.U16
  else if actual < 0xffffffff then
    StaticIntLiteral.U32
  else
    StaticIntLiteral.U64

/-- `try_match_u64_value` from src/compiler.rs.  `none` models the
failure path (the code prints the doesn't-fit warning with the value
and returns `None`). -/
def try_match_u64_value (actual : Nat) (expected : StaticIntLiteral) : Option Ret :=
  let minimal_size := determine_minimal_size actual
  match expected with
  | StaticIntLiteral.U64 => some (Ret.Int StaticIntLiteral.U64)
  | StaticIntLiteral.U32 =>
    if minimal_size = StaticIntLiteral.U32 ∨ minimal_size = StaticIntLiteral.U16 ∨
       minimal_size = StaticIntLiteral.U8 then
      some (Ret.Int StaticIntLiteral.U32)
    else none
  | StaticIntLiteral.U16 =>
    if minimal_size = StaticIntLiteral.U16 ∨ minimal_size = StaticIntLiteral.U8 then
      some (Ret.Int StaticIntLiteral.U16)
    else none
  | StaticIntLiteral.U8 =>
    if minimal_size = StaticIntLiteral.U8 then
      some (Ret.Int StaticIntLiteral.U8)
    else none
  | _ => none

/-- `get_return_type_inner` from src/compiler.rs: infer the return type
from the last statement, guided by the declared (outer) type.  Every
fall-through arm of the nested Rust `match` ends at the final `None`. -/
def get_return_type_inner (statements : List Stmt) (expected_type : Option Ret) : Option Ret :=
  match statements.getLast? with
  | none => none
  | some last_statement =>
    match last_statement with
    | Stmt.expr e =>
      match expected_type with
      | some expected =>
        match e with
        | Expr.lit (Lit.int v su) =>
          match expected with
          | Ret.Int expected_int =>
            match su with
            | IntSuffix.None => try_match_u64_value v expected_int
            | IntSuffix.I8 => some (Ret.Int StaticIntLiteral.I8)
            | IntSuffix.I16 => some (Ret.Int StaticIntLiteral.I16)
            | IntSuffix.I32 => some (Ret.Int StaticIntLiteral.I32)
            | IntSuffix.I64 => some (Ret.Int StaticIntLiteral.I64)
            | IntSuffix.U8 => some (Ret.Int StaticIntLiteral.U8)
            | IntSuffix.U16 => some (Ret.Int StaticIntLiteral.U16)
            | IntSuffix.U32 => some (Ret.Int StaticIntLiteral.U32)
            | IntSuffix.U64 => some (Ret.Int StaticIntLiteral.U64)
            | _ => none
          | _ => none
        | _ => none
      | none => none
    | _ => none

/-- `get_return_type_outer` from src/compiler.rs: only an unqualified
path type whose first segment is `u8`/`u16`/`u32`/`u64` resolves. -/
def get_return_type_outer (return_type : Option Ty) : Option Ret :=
  match return_type with
  | none => none
  | some (Ty.path leading_colon segments) =>
    if leading_colon then none
    else
      match segments.head? with
      | none => none
      | some first_segment =>
        if first_segment = "u8" then some (Ret.Int StaticIntLiteral.U8)
        else if first_segment = "u16" then some (Ret.Int StaticIntLiteral.U16)
        else if first_segment = "u32" then some (Ret.Int StaticIntLiteral.U32)
        else if first_segment = "u64" then some (Ret.Int StaticIntLiteral.U64)
        else none
  | some Ty.other => none

/-- `transform_u32_to_array_of_u8_le` from src/compiler.rs
(`x` must be below `2^32`, as guaranteed by the `as u32` cast at the
call site; `& 0xff` is written `% 256`). -/
def transform_u32_to_array_of_u8_le (x : Nat) : List Nat :=
  let b1 := (x >>> 24) % 256
  let b2 := (x >>> 16) % 256
  let b3 := (x >>> 8) % 256
  let b4 := x % 256
  [b4, b3, b2, b1]

/-- `transform_u16_to_array_of_u8_le` from src/compiler.rs. -/
def transform_u16_to_array_of_u8_le (x : Nat) : List Nat :=
  let b1 := (x >>> 8) % 256
  let b2 := x % 256
  [b2, b1]

/-- `transform_u64_to_array_of_u8_le` from src/compiler.rs. -/
def transform_u64_to_array_of_u8_le (x : Nat) : List Nat :=
  let b1 := (x >>> 56) % 256
  let b2 := (x >>> 48) % 256
  let b3 := (x >>> 40) % 256
  let b4 := (x >>> 32) % 256
  let b5 := (x >>> 24) % 256
  let b6 := (x >>> 16) % 256
  let b7 := (x >>> 8) % 256
  let b8 := x % 256
  [b8, b7, b6, b5, b4, b3, b2, b1]

/-- The bytes contributed by one statement inside the loop of
`assemble_statements` (src/compiler.rs): opcode selection, the
64-bit-to-32-bit narrowing, and the width-matched little-endian
immediate, with the `as uN` truncating casts written as `% 2^N`. -/
def assemble_one_statement (stmt : Stmt) (return_type : Ret) : List Nat :=
  match stmt with
  | Stmt.expr (Expr.lit (Lit.int val _)) =>
    let min_size := determine_minimal_size val
    let optimal_return_size :=
      if return_type = Ret.Int StaticIntLiteral.U64 ∧
         (min_size = StaticIntLiteral.U32 ∨ min_size = StaticIntLiteral.U16 ∨
          min_size = StaticIntLiteral.U8) then
        Ret.Int StaticIntLiteral.U32
      else return_type
    match optimal_return_size.get_optimal_register_return with
    | none => []
    | some asm_instr =>
      (match asm_instr with
       | Instruction.OneComponent a => [a]
       | Instruction.TwoComponent a b => [a, b]) ++
      (match optimal_return_size with
       | Ret.Int i =>
         match i with
         | StaticIntLiteral.U64 => transform_u64_to_array_of_u8_le val
         | StaticIntLiteral.U32 => transform_u32_to_array_of_u8_le (val % 2 ^ 32)
         | StaticIntLiteral.U16 => transform_u16_to_array_of_u8_le (val % 2 ^ 16)
         | StaticIntLiteral.U8 => [val % 2 ^ 8]
         | _ => []
       | _ => [])
  | _ => []

/-- `assemble_statements` from src/compiler.rs.  The code begins with
`return_type.unwrap()`: `none` models the panic when no return type was
passed.  (The `fn_map` parameter of the source is unused by the body.) -/
def assemble_statements (stmts : List Stmt) (return_type : Option Ret)
    (_fn_map : List (Nat × Function)) : Option (List Nat) :=
  match return_type with
  | none => none
  | some rt => some (stmts.foldl (fun acc s => acc ++ assemble_one_statement s rt) [])

/-- Lookup in the label-keyed function map (`BTreeMap::get`). -/
def lookup_fn (fn_map : List (Nat × Function)) (label : Nat) : Option Function :=
  (fn_map.find? (fun p => p.1 == label)).map (fun p => p.2)

/-- `assemble_function` from src/compiler.rs.  `none` models a panic
(the `unwrap` on the map lookup, or the `unwrap` inside
`assemble_statements`); `some []` is the early `return Vec::new()`
taken when the outer and inner return types disagree (the code only
prints the mismatch).  The unused offset-map parameter is omitted. -/
def assemble_function (fn_location : Nat) (fn_map : List (Nat × Function)) :
    Option (List Nat) :=
  match lookup_fn fn_map fn_location with
  | none => none
  | some entry =>
    let return_type_outer := get_return_type_outer entry.return_type
    let return_type_inner := get_return_type_inner entry.statements return_type_outer
    if return_type_outer ≠ return_type_inner then some []
    else
      match assemble_statements entry.statements return_type_outer fn_map with
      | none => none
      | some body => some (FN_PROLOGUE ++ body ++ FN_EPILOGUE)

/-- `is_start_label` from src/compiler.rs: some attribute has no leading
colon and its first path segment is the identifier `start`. -/
def is_start_label (f : ItemFn) : Bool :=
  f.attrs.any (fun attr => !attr.leading_colon && attr.segments.head? == some "start")

/-- State threaded through the item-collection loop of `compile`:
the seen-name set, the label counter, the label-keyed function map
and the recorded entry label. -/
structure CollectState where
  seen : List String
  next_label : Nat
  fns : List (Nat × Function)
  entry : Option Nat
deriving DecidableEq

/-- The item loop of `compile` (src/compiler.rs): register each
function under a fresh label, fail (`none`) on a duplicate name or a
second `start` attribute, ignore non-function items. -/
def collect_items : List Item → CollectState → Option CollectState
  | [], st => some st
  | Item.other :: rest, st => collect_items rest st
  | Item.fn f :: rest, st =>
    if f.ident ∈ st.seen then none
    else
      let result_fn : Function :=
        { name := f.ident, arguments := f.inputs,
          statements := f.stmts, return_type := f.output }
      let st' : CollectState :=
        { seen := f.ident :: st.seen, next_label := st.next_label + 1,
          fns := st.fns ++ [(st.next_label, result_fn)], entry := st.entry }
      if is_start_label f then
        match st.entry with
        | some _ => none
        | none => collect_items rest { st' with entry := some st.next_label }
      else collect_items rest st'

/-- Observable outcome of `compile`: a returned `None`, a returned
`Some(AssemblyBuf)` (carrying its instruction bytes), or a panic
reached inside assembly. -/
inductive CompileOutcome
  | panicked
  | failed
  | ok (instructions : List Nat)
deriving DecidableEq

/-- `compile` from src/compiler.rs.  The global label counter is
modelled starting at 0 (its value never influences the emitted bytes,
only the map keys). -/
def compile (items : List Item) : CompileOutcome :=
  match collect_items items { seen := [], next_label := 0, fns := [], entry := none } with
  | none => CompileOutcome.failed
  | some st =>
    match st.entry with
    | none => CompileOutcome.failed
    | some entry_function =>
      match assemble_function entry_function st.fns with
      | none => CompileOutcome.panicked
      | some instructions => CompileOutcome.ok instructions

/-- `AllocationError` from src/compiler.rs. -/
inductive AllocationError
  | InstructionBufTooLarge
deriving DecidableEq

/-- `JitMemory` from src/jit_memory.rs.  The raw base pointer is
abstracted away: `mem` holds the region's bytes (length
`allocated_size` after a successful allocation). -/
structure JitMemory where
  page_size : Nat
  number_of_pages : Nat
  allocated_size : Nat
  mem : List Nat
deriving DecidableEq

/-- `JitMemory::new` from src/jit_memory.rs (Linux branch), with the
platform page size passed explicitly.  The OS calls are abstracted as
succeeding (their failure paths return `None` and are outside this
model): the region has `num_pages * page_size` bytes, every byte
initialized to the trap opcode `0xCC` by the `memset`. -/
def JitMemory.new (num_pages : Nat) (ps : Nat) : JitMemory :=
  { page_size := ps, number_of_pages := num_pages,
    allocated_size := num_pages * ps,
    mem := List.replicate (num_pages * ps) 0xCC }

/-- `JitMemory::load_assembly` from src/jit_memory.rs: on success the
buffer is `ptr::copy`-ed over the start of the region; on failure the
region (first component) is returned untouched together with the
error. -/
def JitMemory.load_assembly (m : JitMemory) (data : List Nat) :
    JitMemory × Option AllocationError :=
  let instructions_len := data.length
  if instructions_len > m.allocated_size then
    (m, some AllocationError.InstructionBufTooLarge)
  else
    ({ m with mem := data ++ m.mem.drop instructions_len }, none)

/-- `JitMemory::get` from src/jit_memory.rs: `None` when
`index > allocated_size`, otherwise the byte obtained through
`get_unchecked` (a read past the region's end — undefined behavior in
the source — is modelled by the `getD` default). -/
def JitMemory.get (m : JitMemory) (index : Nat) : Option Nat :=
  if index > m.allocated_size then none
  else some (m.mem.getD index 0)

/-- `JitMemory::get_mut` from src/jit_memory.rs: same bounds test as
`get`, returning the byte the mutable reference would point at. -/
def JitMemory.get_mut (m : JitMemory) (index : Nat) : Option Nat :=
  if index > m.allocated_size then none
  else some (m.mem.getD index 0)

/-- The page-count computation of `JitMemory::from_assembly_buf`
(src/jit_memory.rs): `(buf_len as f32 / page_size as f32).ceil()`.
Modelled as exact ceiling division on `Nat`; the two agree wherever
the `f32` quotient is exact — in particular at `buf_len = 0`. -/
def necessary_pages (buf_len ps : Nat) : Nat := (buf_len + ps - 1) / ps

/-- `JitMemory::from_assembly_buf` from src/jit_memory.rs: allocate
just enough pages for the buffer, then load it; `.ok()?` turns a load
failure into `None`. -/
def JitMemory.from_assembly_buf (data : List Nat) (ps : Nat) : Option JitMemory :=
  let memory := JitMemory.new (necessary_pages data.length ps) ps
  match memory.load_assembly data with
  | (_, some _) => none
  | (m2, none) => some m2

/-! ## Helper lemmas -/

theorem determine_minimal_size_cases (v : Nat) :
    determine_minimal_size v = StaticIntLiteral.U8 ∨
    determine_minimal_size v = StaticIntLiteral.U16 ∨
    determine_minimal_size v = StaticIntLiteral.U32 ∨
    determine_minimal_size v = StaticIntLiteral.U64 := by
  unfold determine_minimal_size
  split_ifs <;> simp

theorem determine_minimal_size_eq_U64_iff (v : Nat) :
    determine_minimal_size v = StaticIntLiteral.U64 ↔ 0xFFFFFFFF ≤ v := by
  unfold determine_minimal_size
  split_ifs <;> simp_all <;> omega

/-! ## Claims -/

/-- The module of C1: one function marked `#[start]`, no parameters,
declared return type `u64`, body the single unsuffixed literal `4`. -/
def round_trip_module : List Item :=
  [Item.fn
    { ident := "main",
      attrs := [{ leading_colon := false, segments := ["start"] }],
      output := some (Ty.path false ["u64"]),
      stmts := [Stmt.expr (Expr.lit (Lit.int 4 IntSuffix.None))],
      inputs := 0 }]

/-- C1 counterexample: the module of C1 does NOT compile to the claimed
byte sequence `55 48 89 E5 B0 04 5D C3`: the code narrows the `u64`
return only down to the 32-bit move (`B8` with a 4-byte immediate),
never to the 8-bit one. -/
theorem C1_counterexample :
    compile round_trip_module ≠
      CompileOutcome.ok [0x55, 0x48, 0x89, 0xE5, 0xB0, 0x04, 0x5D, 0xC3] := by
  decide

/-- C1 (amended): the module of C1 compiles to exactly
`55 48 89 E5 B8 04 00 00 00 5D C3` — prologue, the one-byte 32-bit-move
opcode `B8` with the 4-byte little-endian immediate 4, epilogue. -/
theorem C1_round_trip_bytes :
    compile round_trip_module =
      CompileOutcome.ok
        [0x55, 0x48, 0x89, 0xE5, 0xB8, 0x04, 0x00, 0x00, 0x00, 0x5D, 0xC3] := by
  decide

/-- The acceptance condition exactly as claim C2 words it: `T` is `U64`,
or `T`'s width is at least the literal's minimal representable width
(`U32` accepts minimal `U8`/`U16`/`U32`; `U16` accepts `U8`/`U16`;
`U8` accepts only `U8`). -/
def spec_fit_condition (v : Nat) (T : StaticIntLiteral) : Prop :=
  T = StaticIntLiteral.U64 ∨
  (T = StaticIntLiteral.U32 ∧
    (determine_minimal_size v = StaticIntLiteral.U8 ∨
     determine_minimal_size v = StaticIntLiteral.U16 ∨
     determine_minimal_size v = StaticIntLiteral.U32)) ∨
  (T = StaticIntLiteral.U16 ∧
    (determine_minimal_size v = StaticIntLiteral.U8 ∨
     determine_minimal_size v = StaticIntLiteral.U16)) ∨
  (T = StaticIntLiteral.U8 ∧ determine_minimal_size v = StaticIntLiteral.U8)

/-- C2: for every `u64` value `v` and declared unsigned type `T` among
`U8`/`U16`/`U32`/`U64`, the unsuffixed-literal inference accepts and
yields exactly `T` iff the width condition of the claim holds, and
otherwise fails (the `None` doesn't-fit path, which prints the value). -/
theorem C2_unsuffixed_literal_fit (v : Nat) (T : StaticIntLiteral)
    (_hv : v < 2 ^ 64)
    (hT : T = StaticIntLiteral.U8 ∨ T = StaticIntLiteral.U16 ∨
          T = StaticIntLiteral.U32 ∨ T = StaticIntLiteral.U64) :
    (try_match_u64_value v T = some (Ret.Int T) ↔ spec_fit_condition v T) ∧
    (¬ spec_fit_condition v T → try_match_u64_value v T = none) := by
  rcases hT with h | h | h | h <;> subst h <;>
    cases hms : determine_minimal_size v <;>
      simp [try_match_u64_value, spec_fit_condition, hms]

/-- C2 witness: instantiation at `v = 300`, `T = U8`. -/
theorem C2_unsuffixed_literal_fit_witness :
    (try_match_u64_value 300 StaticIntLiteral.U8 =
        some (Ret.Int StaticIntLiteral.U8) ↔
      spec_fit_condition 300 StaticIntLiteral.U8) ∧
    (¬ spec_fit_condition 300 StaticIntLiteral.U8 →
      try_match_u64_value 300 StaticIntLiteral.U8 = none) :=
  C2_unsuffixed_literal_fit 300 StaticIntLiteral.U8 (by decide) (Or.inl rfl)

/-- C3: the minimal-width classification buckets are exactly
`0..0xFE → U8`, `0xFF..0xFFFE → U16`, `0xFFFF..0xFFFFFFFE → U32`,
`0xFFFFFFFF.. → U64`, and each boundary value classifies into the
next-larger bucket (strict `<`). -/
theorem C3_minimal_size_boundaries (v : Nat) (hv : v < 2 ^ 64) :
    (determine_minimal_size v = StaticIntLiteral.U8 ↔ v ≤ 0xFE) ∧
    (determine_minimal_size v = StaticIntLiteral.U16 ↔ 0xFF ≤ v ∧ v ≤ 0xFFFE) ∧
    (determine_minimal_size v = StaticIntLiteral.U32 ↔ 0xFFFF ≤ v ∧ v ≤ 0xFFFFFFFE) ∧
    (determine_minimal_size v = StaticIntLiteral.U64 ↔ 0xFFFFFFFF ≤ v) ∧
    determine_minimal_size 0xFF = StaticIntLiteral.U16 ∧
    determine_minimal_size 0xFFFF = StaticIntLiteral.U32 ∧
    determine_minimal_size 0xFFFFFFFF = StaticIntLiteral.U64 := by
  refine ⟨?_, ?_, ?_, ?_, by decide, by decide, by decide⟩ <;>
    · unfold determine_minimal_size
      split_ifs <;> simp_all <;> omega

/-- C3 witness: instantiation at `v = 0xFFFF`. -/
theorem C3_minimal_size_boundaries_witness :
    (determine_minimal_size 0xFFFF = StaticIntLiteral.U8 ↔ 0xFFFF ≤ 0xFE) ∧
    (determine_minimal_size 0xFFFF = StaticIntLiteral.U16 ↔
      0xFF ≤ 0xFFFF ∧ 0xFFFF ≤ 0xFFFE) ∧
    (determine_minimal_size 0xFFFF = StaticIntLiteral.U32 ↔
      0xFFFF ≤ 0xFFFF ∧ 0xFFFF ≤ 0xFFFFFFFE) ∧
    (determine_minimal_size 0xFFFF = StaticIntLiteral.U64 ↔ 0xFFFFFFFF ≤ 0xFFFF) ∧
    determine_minimal_size 0xFF = StaticIntLiteral.U16 ∧
    determine_minimal_size 0xFFFF = StaticIntLiteral.U32 ∧
    determine_minimal_size 0xFFFFFFFF = StaticIntLiteral.U64 :=
  C3_minimal_size_boundaries 0xFFFF (by decide)

/-- C4: with validated return type `u64`, a trailing literal of minimal
width `U8`/`U16`/`U32` is emitted as the one-byte opcode `B8` followed
by exactly the 4-byte little-endian immediate, while a literal of
minimal width `U64` is emitted as `48 B8` followed by the 8-byte
little-endian immediate. -/
theorem C4_width_narrowing (v : Nat) (su : IntSuffix) (hv : v < 2 ^ 64) :
    (determine_minimal_size v ≠ StaticIntLiteral.U64 →
      assemble_statements [Stmt.expr (Expr.lit (Lit.int v su))]
          (some (Ret.Int StaticIntLiteral.U64)) [] =
        some [0xB8, v % 256, v / 2 ^ 8 % 256, v / 2 ^ 16 % 256, v / 2 ^ 24 % 256]) ∧
    (determine_minimal_size v = StaticIntLiteral.U64 →
      assemble_statements [Stmt.expr (Expr.lit (Lit.int v su))]
          (some (Ret.Int StaticIntLiteral.U64)) [] =
        some [0x48, 0xB8, v % 256, v / 2 ^ 8 % 256, v / 2 ^ 16 % 256,
              v / 2 ^ 24 % 256, v / 2 ^ 32 % 256, v / 2 ^ 40 % 256,
              v / 2 ^ 48 % 256, v / 2 ^ 56 % 256]) := by
  constructor
  · intro hne
    have hlt : v < 0xFFFFFFFF := by
      rcases Nat.lt_or_ge v 0xFFFFFFFF with h | h
      · exact h
      · exact absurd ((determine_minimal_size_eq_U64_iff v).mpr h) hne
    have hmod : v % 2 ^ 32 = v := Nat.mod_eq_of_lt (by omega)
    rcases determine_minimal_size_cases v with hms | hms | hms | hms <;>
      [skip; skip; skip; exact absurd hms hne] <;>
      simp [assemble_statements, assemble_one_statement, hms,
            Ret.get_optimal_register_return, transform_u32_to_array_of_u8_le,
            hmod, Nat.shiftRight_eq_div_pow] <;>
      omega
  · intro hms
    simp [assemble_statements, assemble_one_statement, hms,
          Ret.get_optimal_register_return, transform_u64_to_array_of_u8_le,
          Nat.shiftRight_eq_div_pow]

/-- C4 witness: instantiation at `v = 4` (minimal width `U8`) and at
`v = 0xFFFFFFFF` (minimal width `U64`). -/
theorem C4_width_narrowing_witness :
    assemble_statements [Stmt.expr (Expr.lit (Lit.int 4 IntSuffix.None))]
        (some (Ret.Int StaticIntLiteral.U64)) [] =
      some [0xB8, 4 % 256, 4 / 2 ^ 8 % 256, 4 / 2 ^ 16 % 256, 4 / 2 ^ 24 % 256] ∧
    assemble_statements [Stmt.expr (Expr.lit (Lit.int 0xFFFFFFFF IntSuffix.None))]
        (some (Ret.Int StaticIntLiteral.U64)) [] =
      some [0x48, 0xB8, 0xFFFFFFFF % 256, 0xFFFFFFFF / 2 ^ 8 % 256,
            0xFFFFFFFF / 2 ^ 16 % 256, 0xFFFFFFFF / 2 ^ 24 % 256,
            0xFFFFFFFF / 2 ^ 32 % 256, 0xFFFFFFFF / 2 ^ 40 % 256,
            0xFFFFFFFF / 2 ^ 48 % 256, 0xFFFFFFFF / 2 ^ 56 % 256] :=
  ⟨(C4_width_narrowing 4 IntSuffix.None (by decide)).1 (by decide),
   (C4_width_narrowing 0xFFFFFFFF IntSuffix.None (by decide)).2 (by decide)⟩

/-- Spec-side mapping from an explicit literal suffix to the integer
return kind that suffix names (the claim's "ReturnKind named by that
suffix"); `none` for the unsuffixed and pointer-width cases. -/
def suffix_kind : IntSuffix → Option StaticIntLiteral
  | IntSuffix.I8 => some StaticIntLiteral.I8
  | IntSuffix.I16 => some StaticIntLiteral.I16
  | IntSuffix.I32 => some StaticIntLiteral.I32
  | IntSuffix.I64 => some StaticIntLiteral.I64
  | IntSuffix.U8 => some StaticIntLiteral.U8
  | IntSuffix.U16 => some StaticIntLiteral.U16
  | IntSuffix.U32 => some StaticIntLiteral.U32
  | IntSuffix.U64 => some StaticIntLiteral.U64
  | _ => none

/-- C5 counterexample: a `u16`-suffixed literal with an ABSENT outer
type infers `none`, not `some (Ret.Int U16)` — the suffix branch only
runs when the declared outer type resolved to an integer kind. -/
theorem C5_counterexample :
    get_return_type_inner [Stmt.expr (Expr.lit (Lit.int 4 IntSuffix.U16))] none = none ∧
    get_return_type_inner [Stmt.expr (Expr.lit (Lit.int 4 IntSuffix.U16))] none ≠
      some (Ret.Int StaticIntLiteral.U16) := by
  decide

/-- C5 (amended): when the declared outer type resolves to SOME integer
kind `k`, a literal with an explicit width suffix infers exactly the
suffix's kind, independent of which integer kind `k` is; when the outer
type is absent, inference yields `none` instead. -/
theorem C5_suffix_inference (stmts : List Stmt) (v : Nat) (su : IntSuffix)
    (s k : StaticIntLiteral)
    (hlast : stmts.getLast? = some (Stmt.expr (Expr.lit (Lit.int v su))))
    (hs : suffix_kind su = some s) :
    get_return_type_inner stmts (some (Ret.Int k)) = some (Ret.Int s) ∧
    get_return_type_inner stmts none = none := by
  unfold get_return_type_inner
  rw [hlast]
  cases su <;> simp_all [suffix_kind]

/-- C5 witness: a `u16`-suffixed literal under a declared `u64` outer
type infers `U16`. -/
theorem C5_suffix_inference_witness :
    get_return_type_inner [Stmt.expr (Expr.lit (Lit.int 4 IntSuffix.U16))]
        (some (Ret.Int StaticIntLiteral.U64)) = some (Ret.Int StaticIntLiteral.U16) ∧
    get_return_type_inner [Stmt.expr (Expr.lit (Lit.int 4 IntSuffix.U16))] none = none :=
  C5_suffix_inference [Stmt.expr (Expr.lit (Lit.int 4 IntSuffix.U16))] 4
    IntSuffix.U16 StaticIntLiteral.U16 StaticIntLiteral.U64 (by decide) (by decide)

/-- The C6 module: entry function declared `u8` whose body is the
unsuffixed literal `300` (outer `U8`, inner inference fails). -/
def mismatch_module : List Item :=
  [Item.fn
    { ident := "main",
      attrs := [{ leading_colon := false, segments := ["start"] }],
      output := some (Ty.path false ["u8"]),
      stmts := [Stmt.expr (Expr.lit (Lit.int 300 IntSuffix.None))],
      inputs := 0 }]

/-- C6 counterexample: for a function whose declared and inferred
return types disagree (`u8` vs a literal that does not fit), `compile`
returns a SUCCESSFUL result carrying an empty instruction buffer — the
mismatch is only printed, no typed error reaches the caller. -/
theorem C6_counterexample :
    get_return_type_inner [Stmt.expr (Expr.lit (Lit.int 300 IntSuffix.None))]
        (some (Ret.Int StaticIntLiteral.U8)) ≠ some (Ret.Int StaticIntLiteral.U8) ∧
    compile mismatch_module = CompileOutcome.ok [] := by
  decide

/-- C6 (amended): when outer and inner types disagree,
`assemble_function` returns the empty byte vector (after printing);
when they agree but are both absent, assembly panics on the internal
`unwrap`; only when both are present and equal does it produce
prologue-framed code. -/
theorem C6_mismatch_behavior (f : Function) :
    (get_return_type_outer f.return_type ≠
        get_return_type_inner f.statements (get_return_type_outer f.return_type) →
      assemble_function 0 [(0, f)] = some []) ∧
    (get_return_type_outer f.return_type = none →
      get_return_type_inner f.statements (get_return_type_outer f.return_type) = none →
      assemble_function 0 [(0, f)] = none) ∧
    (∀ r, get_return_type_outer f.return_type = some r →
      get_return_type_inner f.statements (get_return_type_outer f.return_type) = some r →
      ∃ body, assemble_function 0 [(0, f)] =
        some (FN_PROLOGUE ++ body ++ FN_EPILOGUE)) := by
  have hlook : lookup_fn [(0, f)] 0 = some f := rfl
  refine ⟨?_, ?_, ?_⟩
  · intro hne
    simp [assemble_function, hlook, hne]
  · intro houter hinner
    rw [houter] at hinner
    simp [assemble_function, hlook, houter, hinner, assemble_statements]
  · intro r houter hinner
    rw [houter] at hinner
    refine ⟨f.statements.foldl (fun acc s => acc ++ assemble_one_statement s r) [], ?_⟩
    simp [assemble_function, hlook, houter, hinner, assemble_statements]

/-- The C6 function record as collected from `mismatch_module`. -/
def mismatch_function : Function :=
  { name := "main", arguments := 0,
    statements := [Stmt.expr (Expr.lit (Lit.int 300 IntSuffix.None))],
    return_type := some (Ty.path false ["u8"]) }

/-- C6 witness: the mismatching function assembles to the empty byte
vector. -/
theorem C6_mismatch_behavior_witness :
    assemble_function 0 [(0, mismatch_function)] = some [] :=
  (C6_mismatch_behavior mismatch_function).1 (by decide)

/-- The C7 module: entry function declared `u64` with an empty body. -/
def empty_body_module : List Item :=
  [Item.fn
    { ident := "main",
      attrs := [{ leading_colon := false, segments := ["start"] }],
      output := some (Ty.path false ["u64"]),
      stmts := [], inputs := 0 }]

/-- C7 counterexample: for an empty-body function (declared `u64`)
`compile` does not fail with any error kind — it returns a SUCCESSFUL
result with an empty instruction buffer. -/
theorem C7_counterexample :
    compile empty_body_module = CompileOutcome.ok [] := by
  decide

/-- C7 (amended): for an empty body, return-type inference yields
`none` whatever the expected type is; compilation then returns the
empty byte vector via the mismatch path when an integer type was
declared, and panics on the internal `unwrap` when no type resolves —
no `EmptyFunction` error exists in the code. -/
theorem C7_empty_body_behavior (f : Function) (hempty : f.statements = []) :
    (∀ expected_type, get_return_type_inner f.statements expected_type = none) ∧
    (get_return_type_outer f.return_type ≠ none →
      assemble_function 0 [(0, f)] = some []) ∧
    (get_return_type_outer f.return_type = none →
      assemble_function 0 [(0, f)] = none) := by
  have hlook : lookup_fn [(0, f)] 0 = some f := rfl
  have hinner : ∀ expected_type, get_return_type_inner f.statements expected_type = none := by
    intro expected_type
    rw [hempty]
    rfl
  refine ⟨hinner, ?_, ?_⟩
  · intro houter
    simp [assemble_function, hlook, hinner, houter]
  · intro houter
    simp [assemble_function, hlook, hinner, houter, assemble_statements]

/-- The C7 function record as collected from `empty_body_module`. -/
def empty_body_function : Function :=
  { name := "main", arguments := 0, statements := [],
    return_type := some (Ty.path false ["u64"]) }

/-- C7 witness: the empty-body function infers no type and assembles to
the empty byte vector. -/
theorem C7_empty_body_behavior_witness :
    get_return_type_inner empty_body_function.statements none = none ∧
    assemble_function 0 [(0, empty_body_function)] = some [] :=
  ⟨(C7_empty_body_behavior empty_body_function rfl).1 none,
   (C7_empty_body_behavior empty_body_function rfl).2.1 (by decide)⟩

/-- C8: loading a buffer longer than the region's capacity fails with
`InstructionBufTooLarge` and returns the region byte-for-byte
unchanged; loading a buffer that fits succeeds and copies its bytes
into the region starting at offset 0. -/
theorem C8_load_assembly (m : JitMemory) (data : List Nat) :
    (data.length > m.allocated_size →
      m.load_assembly data = (m, some AllocationError.InstructionBufTooLarge)) ∧
    (data.length ≤ m.allocated_size →
      (m.load_assembly data).2 = none ∧
      ∀ i, i < data.length →
        (m.load_assembly data).1.mem.getD i 0 = data.getD i 0) := by
  constructor
  · intro h
    simp [JitMemory.load_assembly, h]
  · intro h
    have hnot : ¬ data.length > m.allocated_size := by omega
    refine ⟨by simp [JitMemory.load_assembly, hnot], ?_⟩
    intro i hi
    have hmem : (m.load_assembly data).1.mem = data ++ m.mem.drop data.length := by
      simp [JitMemory.load_assembly, hnot]
    rw [hmem]
    exact List.getD_append _ _ _ _ hi

/-- C8 witness: a 3-byte buffer loads into a 16-byte region; a 1-byte
buffer fails on a 0-byte region, returning the region unchanged with
the too-large error. -/
theorem C8_load_assembly_witness :
    ((JitMemory.new 1 16).load_assembly [1, 2, 3]).2 = none ∧
    (JitMemory.new 0 16).load_assembly [7] =
      (JitMemory.new 0 16, some AllocationError.InstructionBufTooLarge) :=
  ⟨((C8_load_assembly (JitMemory.new 1 16) [1, 2, 3]).2 (by decide)).1,
   (C8_load_assembly (JitMemory.new 0 16) [7]).1 (by decide)⟩

/-- C9 (the code's off-by-one, at the failing input): for a one-page
region of capacity 16, index 16 is out of range (`¬ 16 < capacity`),
yet both `get` and `get_mut` return `some` — the bounds test is
`index > allocated_size` instead of `index ≥ allocated_size`, so the
checked accessors hand out a reference one byte past the region. -/
theorem C9_get_out_of_bounds :
    ¬ 16 < (JitMemory.new 1 16).allocated_size ∧
    (JitMemory.new 1 16).get 16 ≠ none ∧
    (JitMemory.new 1 16).get_mut 16 ≠ none ∧
    ∀ i, i < (JitMemory.new 1 16).allocated_size →
      (JitMemory.new 1 16).get i = some 0xCC := by
  refine ⟨by decide, by decide, by decide, ?_⟩
  intro i hi
  simp [JitMemory.new] at hi
  interval_cases i <;> decide

/-- C10: for an empty instruction buffer, `from_assembly_buf` computes
a needed page count of zero, allocates a zero-capacity region, the load
of the empty buffer succeeds, and the result is a region of capacity 0
and 0 pages (no one-page minimum, no failure). -/
theorem C10_empty_buffer_zero_pages (ps : Nat) (hps : 0 < ps) :
    necessary_pages 0 ps = 0 ∧
    (JitMemory.new (necessary_pages 0 ps) ps).allocated_size = 0 ∧
    ((JitMemory.new (necessary_pages 0 ps) ps).load_assembly []).2 = none ∧
    ∃ m, JitMemory.from_assembly_buf [] ps = some m ∧
      m.allocated_size = 0 ∧ m.number_of_pages = 0 := by
  have h0 : necessary_pages 0 ps = 0 := by
    unfold necessary_pages
    exact Nat.div_eq_of_lt (by omega)
  refine ⟨h0, by simp [JitMemory.new, h0], ?_, ?_⟩
  · simp [JitMemory.load_assembly, JitMemory.new, h0]
  · refine ⟨{ page_size := ps, number_of_pages := 0, allocated_size := 0, mem := [] },
      ?_, rfl, rfl⟩
    simp [JitMemory.from_assembly_buf, JitMemory.load_assembly, JitMemory.new, h0]

/-- C10 witness: instantiation at the usual 4096-byte page size. -/
theorem C10_empty_buffer_zero_pages_witness :
    necessary_pages 0 4096 = 0 ∧
    (JitMemory.new (necessary_pages 0 4096) 4096).allocated_size = 0 ∧
    ((JitMemory.new (necessary_pages 0 4096) 4096).load_assembly []).2 = none ∧
    ∃ m, JitMemory.from_assembly_buf [] 4096 = some m ∧
      m.allocated_size = 0 ∧ m.number_of_pages = 0 :=
  C10_empty_buffer_zero_pages 4096 (by decide)

end GsrJit
